import Mathlib

/-!
Shallow embedding of the protocol engine of `texecomConnect.py` (Texecom
Connect client).  Bytes are modelled as `Nat` (the value `ord` returns in the
Python source); byte strings are `List Nat`.  Stateful methods of the
`TexecomConnect` class are modelled as explicit state-passing functions.
Time-driven behaviour (the 30-second idle keepalive, the wall-clock
timestamps stored on zones) is outside the embedding: none of the verified
properties depends on wall-clock time, only on the order of events.
-/

/-! ## CRC-8 (crcmod, poly=0x185, rev=False, initCrc=0xff)

`self.crc8_func = crcmod.mkCrcFun(poly=0x185, rev=False, initCrc=0xff)`:
a non-reflected CRC-8 with generator x^8+x^7+x^2+1, register initialised to
0xFF, no final XOR, processing each byte MSB-first. -/

def crc8_bit (crc : Nat) : Nat :=
  if crc &&& 128 ≠ 0 then ((crc <<< 1) ^^^ 0x85) &&& 255 else (crc <<< 1) &&& 255

def crc8_update (crc b : Nat) : Nat :=
  (List.range 8).foldl (fun c _ => crc8_bit c) (crc ^^^ b)

def crc8 (data : List Nat) : Nat := data.foldl crc8_update 0xff

/-! ## Outgoing sequence counter and command framing -/

/-- `TexecomConnect.getnextseq` (lines 373-378): the stored counter is reset
to 0 when it has reached 256, the reset value is returned and the stored
counter incremented.  Returns `(value handed out, new stored counter)`. -/
def getnextseq (nextseq : Nat) : Nat × Nat :=
  let ns := if nextseq == 256 then 0 else nextseq
  (ns, ns + 1)

/-- State of the sending half of `TexecomConnect`: the wrapping counter
`self.nextseq`, `self.last_sequence` (byte value of the outstanding
command's sequence) and `self.last_command` (the frame kept for resending). -/
structure SendState where
  nextseq : Nat
  last_sequence : Nat
  last_command : Option (List Nat)
deriving DecidableEq, Repr

/-- The frame built by `sendcommandbody`:
`'t' + 'C' + chr(len(body)+5) + chr(seq) + body` followed by the CRC-8 of
everything before it.  `'t'` is byte 116 and `'C'` byte 67. -/
def texframe (body : List Nat) (seq : Nat) : List Nat :=
  let data := [116, 67, body.length + 5, seq] ++ body
  data ++ [crc8 data]

/-- `TexecomConnect.sendcommandbody` (lines 491-500): draw one sequence
number, build and send the frame, remember it in `last_command`.
Returns the new state and the bytes put on the wire. -/
def sendcommandbody (st : SendState) (body : List Nat) : SendState × List Nat :=
  let seq := (getnextseq st.nextseq).1
  let ns := (getnextseq st.nextseq).2
  let data := texframe body seq
  ({ nextseq := ns, last_sequence := seq, last_command := some data }, data)

/-- The resends performed by the retry loop of `sendcommand`
(lines 545-556) when the first `ntimeouts` calls to `recvresponse` raise
`socket.timeout`: each timeout consumes one of the `retries` budget and
puts `self.last_command` back on the wire.  The state is not modified by
the loop, so it is threaded through unchanged. -/
def sendRetrySends (st : SendState) : Nat → Nat → List (List Nat)
  | 0, _ => []
  | _ + 1, 0 => []
  | r + 1, k + 1 => st.last_command.getD [] :: sendRetrySends st r k

/-- `TexecomConnect.CMD_RETRIES` -/
def CMD_RETRIES : Nat := 3

/-- `TexecomConnect.sendcommand` (lines 538-558), transmission side:
prefix the command id to the body (or send the id alone when the body is
`none`), send the frame once, then resend on each of the first `ntimeouts`
timeouts, at most `CMD_RETRIES` times.  Returns the list of byte strings
sent, in order, and the final state (`last_command` is cleared at the end
of `sendcommand`). -/
def sendcommand_trace (st : SendState) (cmd : Nat) (body : Option (List Nat))
    (ntimeouts : Nat) : List (List Nat) × SendState :=
  let fullbody := match body with
    | some b => cmd :: b
    | none => [cmd]
  let st1 := (sendcommandbody st fullbody).1
  let data := (sendcommandbody st fullbody).2
  (data :: sendRetrySends st1 CMD_RETRIES ntimeouts, { st1 with last_command := none })

/-- Response routing at the end of `sendcommand` (lines 562-570): the first
byte of the response must echo the command id; on a mismatch (including the
recognised LOGIN/NAK session-timeout case) the result is `None`, otherwise
the payload after the id is returned.  An empty response would raise in
Python; it is mapped to `none` here and is unreachable for frames produced
by `recvresponse` on well-formed wire data. -/
def sendcommand_route (cmd : Nat) (response : List Nat) : Option (List Nat) :=
  match response with
  | [] => none
  | commandid :: payload => if commandid == cmd then some payload else none

/-! ## Receive loop -/

/-- Receiver-side state used by `recvresponse`: `self.last_sequence` (byte
of the outstanding command) and `self.last_received_seq` (last unsolicited
message sequence, `-1` until the first message). -/
structure RecvState where
  last_sequence : Nat
  last_received_seq : Int
deriving DecidableEq, Repr

/-- How one call to `recvresponse` ends.
`closed`: the socket was closed with `closesocket` and `None` returned
(panel hangup or EOF).  `protoErr`: `None` was returned with the socket
left open (bad start byte, CRC mismatch, unexpected `C` frame).
`response`: a matching `R` body was returned to the caller.
`timeout`: the input was exhausted, modelling `socket.timeout`. -/
inductive RecvOutcome where
  | closed
  | protoErr
  | response (body : List Nat)
  | timeout
deriving DecidableEq, Repr

/-- `TexecomConnect.recvresponse` (lines 389-489) with the socket reads made
explicit: each element of `packets` is the pair of byte strings returned by
the `recv` of the 4-byte header and the `recv` of the payload for one
iteration of the loop.  `handled` accumulates the message bodies passed to
`self.message_handler_func`.  The time-driven idle-command branch
(lines 398-415) is not modelled: it cannot trigger while a command is
outstanding, since `last_command_time` was set when the command was sent
and the loop gives up after `CMD_TIMEOUT` = 2 seconds, far below the
30-second idle threshold. -/
def recvLoop (st : RecvState) : List (List Nat × List Nat) → List (List Nat) →
    RecvOutcome × RecvState × List (List Nat)
  | [], handled => (.timeout, st, handled)
  | (header, payload) :: rest, handled =>
    if header = [43, 43, 43] then (.closed, st, handled)
    else if header = [43, 43, 43, 65] then (.closed, st, handled)
    else if header.length = 0 then (.closed, st, handled)
    else if header.length < 4 then recvLoop st rest handled
    else
      let msg_start := header.getD 0 0
      let msg_type := header.getD 1 0
      let msg_length := header.getD 2 0
      let msg_sequence := header.getD 3 0
      if msg_start ≠ 116 then (.protoErr, st, handled)
      else
        let expected_len := msg_length - 4
        if payload.length < expected_len then recvLoop st rest handled
        else
          let body := payload.dropLast
          let msg_crc := payload.getLast?.getD 0
          if msg_crc ≠ crc8 (header ++ body) then (.protoErr, st, handled)
          else if msg_type = 82 ∧ msg_sequence ≠ st.last_sequence then
            recvLoop st rest handled
          else if msg_type = 77 ∧ st.last_received_seq ≠ -1 ∧
              (msg_sequence : Int) = st.last_received_seq then
            recvLoop st rest handled
          else if msg_type = 67 then (.protoErr, st, handled)
          else if msg_type = 82 then (.response body, st, handled)
          else if msg_type = 77 then
            recvLoop { st with last_received_seq := (msg_sequence : Int) } rest
              (handled ++ [body])
          else recvLoop st rest handled

/-- A well-formed `R` (response) packet as it arrives on the wire, split
into the header read and the payload read: header
`['t', 'R', len(body)+5, seq]`, payload `body` plus the trailing CRC byte. -/
def mkRpkt (seq : Nat) (body : List Nat) : List Nat × List Nat :=
  ([116, 82, body.length + 5, seq],
    body ++ [crc8 ([116, 82, body.length + 5, seq] ++ body)])

/-! ## GET_DATETIME decoding -/

/-- Python `"{:02d}".format n` for a natural number: decimal, left-padded
with `0` to at least two digits. -/
def fmt2 (n : Nat) : String := if n < 10 then "0" ++ Nat.repr n else Nat.repr n

/-- The format string of `get_date_time` (line 581):
`'20{2:02d}-{1:02d}-{0:02d} {3:02d}:{4:02d}:{5:02d}'` applied to the six
data bytes `[day, month, year, hour, minute, second]`. -/
def get_date_time_render (day month year hour minute second : Nat) : String :=
  "20" ++ fmt2 year ++ "-" ++ fmt2 month ++ "-" ++ fmt2 day ++ " " ++
    fmt2 hour ++ ":" ++ fmt2 minute ++ ":" ++ fmt2 second

/-- `TexecomConnect.CMD_GETDATETIME = chr(23)` -/
def CMD_GETDATETIME : Nat := 23

/-- Gregorian leap-year rule used by Python's `datetime` module. -/
def isLeapYear (y : Nat) : Bool := (y % 4 == 0 && y % 100 != 0) || y % 400 == 0

/-- Days in a month as validated by `datetime.datetime`. -/
def daysInMonth (y m : Nat) : Nat :=
  if m = 2 then (if isLeapYear y then 29 else 28)
  else if m = 4 ∨ m = 6 ∨ m = 9 ∨ m = 11 then 30
  else 31

/-- Whether the call `datetime.datetime(2000 + data[2], data[1], data[0],
*data[3:])` at line 582 succeeds for the data bytes `data` (at least 6
long, each 0..255).  It raises `TypeError` when `data` has 8 or more
elements (the eighth positional argument is `tzinfo`, which may not be an
integer) and `ValueError` when a field is out of range: month outside
1..12, day outside 1..days-in-month, hour above 23, minute or second above
59.  The year `2000 + data[2]` (2000..2255) and a seventh byte used as
`microsecond` (0..255 < 1000000) are always in range. -/
def datetime_ctor_ok (data : List Nat) : Bool :=
  data.length ≤ 7 &&
  (1 ≤ data.getD 1 0 && data.getD 1 0 ≤ 12) &&
  (1 ≤ data.getD 0 0 &&
    data.getD 0 0 ≤ daysInMonth (2000 + data.getD 2 0) (data.getD 1 0)) &&
  data.getD 3 0 ≤ 23 && data.getD 4 0 ≤ 59 && data.getD 5 0 ≤ 59

/-- How `get_date_time` ends: `returnedNone` models the `return None`
paths, `raised` an uncaught exception escaping from the
`datetime.datetime` construction, `returned s` a normal return of the
rendered string. -/
inductive DTOutcome where
  | returnedNone
  | raised
  | returned (s : String)
deriving DecidableEq, Repr

/-- `TexecomConnect.get_date_time` (lines 572-589) applied to the response
body returned by `recvresponse` (command id still in front): `sendcommand`
strips and checks the echoed id, bodies shorter than six data bytes are
rejected with `None`, the first six data bytes are rendered by the format
string at line 581, and then line 582 rebuilds the timestamp with
`datetime.datetime` - which raises (and the exception propagates, so no
string is returned) whenever the fields do not form a valid date and time
or the body carries 8 or more data bytes. -/
def get_date_time_decode (response : List Nat) : DTOutcome :=
  match sendcommand_route CMD_GETDATETIME response with
  | none => .returnedNone
  | some data =>
    if data.length < 6 then .returnedNone
    else if datetime_ctor_ok data then
      .returned (get_date_time_render (data.getD 0 0) (data.getD 1 0) (data.getD 2 0)
        (data.getD 3 0) (data.getD 4 0) (data.getD 5 0))
    else .raised

/-! ## Zone-details decoding -/

/-- Python 2 `re` word character under the default (ASCII) locale:
`[a-zA-Z0-9_]`. -/
def isWordByte (c : Nat) : Bool :=
  (48 ≤ c && c ≤ 57) || (65 ≤ c && c ≤ 90) || (97 ≤ c && c ≤ 122) || c == 95

/-- `zone.text.replace("\x00", " ")` (line 663). -/
def replaceNul (l : List Nat) : List Nat := l.map fun c => if c == 0 then 32 else c

/-- `re.sub(r'\W+', ' ', text)` (line 664): every maximal run of non-word
bytes becomes a single space (byte 32).  The flag records whether the
previous byte was part of a non-word run already replaced. -/
def collapseAux : Bool → List Nat → List Nat
  | _, [] => []
  | inRun, c :: rest =>
    if isWordByte c then c :: collapseAux false rest
    else if inRun then collapseAux true rest
    else 32 :: collapseAux true rest

def collapseNonWord (l : List Nat) : List Nat := collapseAux false l

/-- Bytes removed by Python `str.strip()`. -/
def isSpaceByte (c : Nat) : Bool :=
  c == 32 || c == 9 || c == 10 || c == 11 || c == 12 || c == 13

/-- `text.strip()` (line 665). -/
def stripBytes (l : List Nat) : List Nat :=
  ((l.dropWhile isSpaceByte).reverse.dropWhile isSpaceByte).reverse

/-- The label clean-up applied to zone text (lines 663-665). -/
def cleanText (l : List Nat) : List Nat := stripBytes (collapseNonWord (replaceNul l))

/-- The fields of a `Zone` that `get_zone_details` populates on success. -/
structure ZoneRec where
  zoneType : Nat
  areaBitmap : Nat
  text : List Nat
deriving DecidableEq, Repr

/-- `TexecomConnect.get_zone_details` (lines 637-669), decoding part: the
response length selects the width of the little-endian area bitmap (34
bytes: 1-byte bitmap; 35: 2; 41: 8), the rest of the body is the cleaned
zone text; any other length is rejected (`None`, no zone fields set). -/
def get_zone_details_parse (details : List Nat) : Option ZoneRec :=
  if details.length = 34 then
    some { zoneType := details.getD 0 0, areaBitmap := details.getD 1 0,
           text := cleanText (details.drop 2) }
  else if details.length = 35 then
    some { zoneType := details.getD 0 0,
           areaBitmap := details.getD 1 0 + (details.getD 2 0 <<< 8),
           text := cleanText (details.drop 3) }
  else if details.length = 41 then
    some { zoneType := details.getD 0 0,
           areaBitmap := details.getD 1 0 + (details.getD 2 0 <<< 8) +
             (details.getD 3 0 <<< 16) + (details.getD 4 0 <<< 24) +
             (details.getD 5 0 <<< 32) + (details.getD 6 0 <<< 40) +
             (details.getD 7 0 <<< 48) + (details.getD 8 0 <<< 56),
           text := cleanText (details.drop 9) }
  else none

/-! ## Site-data iteration ranges -/

/-- The fixed zones-to-users table of `get_all_users` (line 766). -/
def panel_users (n : Nat) : Option Nat :=
  if n = 12 then some 8
  else if n = 24 then some 25
  else if n = 48 then some 50
  else if n = 64 then some 50
  else if n = 88 then some 100
  else if n = 168 then some 200
  else if n = 640 then some 1000
  else none

/-- The fixed zones-to-areas table of `get_all_areas` (line 776). -/
def panel_areas (n : Nat) : Option Nat :=
  if n = 12 then some 2
  else if n = 24 then some 2
  else if n = 48 then some 4
  else if n = 64 then some 4
  else if n = 88 then some 8
  else if n = 168 then some 16
  else if n = 640 then some 64
  else none

/-- Python `range(a, b)`: the list `[a, a+1, ..., b-1]`. -/
def pyrange (a b : Nat) : List Nat := List.range' a (b - a)

/-- The user numbers passed to `get_user` by `get_all_users` (lines 765-767):
`range(1, panel_users[numberOfZones])`.  `none` models the `KeyError` on a
zone count outside the table. -/
def get_all_users_iter (n : Nat) : Option (List Nat) :=
  (panel_users n).map fun u => pyrange 1 u

/-- The area numbers passed to `get_area_details` by `get_all_areas`
(lines 775-777): `range(1, panel_areas[numberOfZones])`. -/
def get_all_areas_iter (n : Nat) : Option (List Nat) :=
  (panel_areas n).map fun a => pyrange 1 a

/-! ## Zone active flag and its callback

Only the `active` flag and the invocations of `active_func` are modelled:
the `smoothed_active` machinery reads `active` but never writes it and
calls a different callback (`smoothed_active_func`), so it cannot change
what is proved here.  `active_func` is taken to be installed (not `None`). -/

/-- An operation on a `Zone`: an assignment to the `active` property (as
performed by `message_handler` on a zone event) or one `update()` tick of
the receive loop. -/
inductive ZoneOp where
  | setActive (b : Bool)
  | update
deriving DecidableEq, Repr

/-- One operation on the `active` flag, returning the new flag and the list
of `(prev, next)` argument pairs passed to `active_func`.
Setter (lines 98-111): an assignment equal to the current value returns
immediately without calling the callback; otherwise the callback is called
once with the old and new values before the store.
`update` (lines 64-73): `active_func(self, True, True)` is invoked on every
tick while `active` is true. -/
def zoneStep (active : Bool) : ZoneOp → Bool × List (Bool × Bool)
  | .setActive b => if b == active then (active, []) else (b, [(active, b)])
  | .update => (active, if active then [(true, true)] else [])

/-- Run a sequence of operations from a given `active` value, accumulating
every `active_func` invocation. -/
def zoneRun (active : Bool) : List ZoneOp → Bool × List (Bool × Bool)
  | [] => (active, [])
  | op :: rest =>
    let st := zoneStep active op
    let tail := zoneRun st.1 rest
    (tail.1, st.2 ++ tail.2)

/-- The number of transitions of the `active` flag performed by a sequence
of operations (assignments that change the value; `update` never changes
it). -/
def transitionsCount (active : Bool) : List ZoneOp → Nat
  | [] => 0
  | .setActive b :: rest => (if b == active then 0 else 1) + transitionsCount b rest
  | .update :: rest => transitionsCount active rest

/-- The number of `update` ticks executed while the `active` flag is true. -/
def updatesWhileActive (active : Bool) : List ZoneOp → Nat
  | [] => 0
  | .setActive b :: rest => updatesWhileActive b rest
  | .update :: rest => (if active then 1 else 0) + updatesWhileActive active rest

/-! ## Zone-event handling: model mutation vs. text decoding -/

/-- `MSG_ZONEEVENT = chr(1)` -/
def MSG_ZONEEVENT : Nat := 1

/-- The zone-event branch of the top-level `message_handler`
(lines 973-984): the zone number is read from the first payload byte after
the message type and the state bitmap from the second, regardless of the
payload length.  Returns `(zone number mutated, bitmap applied, the value
assigned to the zone's active flag)`; the assigned state is the low two
bits of the bitmap and `active` iff that state is 1. -/
def message_handler_zone (payload : List Nat) : Option (Nat × Nat × Bool) :=
  match payload with
  | [] => none
  | msg_type :: rest =>
    if msg_type = MSG_ZONEEVENT then
      some (rest.getD 0 0, rest.getD 1 0, (rest.getD 1 0) &&& 3 == 1)
    else none

/-- The zone-event branch of `decode_message_to_text` (lines 845-853),
number and bitmap extraction: a 2-byte payload is `{zone(1), bitmap(1)}`, a
3-byte payload is `{zone(2 little-endian), bitmap(1)}`, any other length is
rejected. -/
def decode_zone_event (payload : List Nat) : Option (Nat × Nat) :=
  match payload with
  | [] => none
  | msg_type :: rest =>
    if msg_type = MSG_ZONEEVENT then
      if rest.length = 2 then some (rest.getD 0 0, rest.getD 1 0)
      else if rest.length = 3 then
        some (rest.getD 0 0 + (rest.getD 1 0 <<< 8), rest.getD 2 0)
      else none
    else none

/-! ## Theorems -/

/-- Claim C5 (confirmed): successive commands carry sequence numbers `s` and
`(s + 1) % 256`: `getnextseq` yields consecutive values in `0..255`,
wrapping from 255 back to 0, and each `sendcommandbody` consumes exactly
one value and places it in the header byte at offset 3. -/
theorem tx_c5_sequence_monotone (s : Nat) (st : SendState) (body : List Nat)
    (h : s ≤ 256) (hst : st.nextseq = s) :
    (getnextseq s).1 < 256 ∧
    (getnextseq s).2 ≤ 256 ∧
    (getnextseq (getnextseq s).2).1 = ((getnextseq s).1 + 1) % 256 ∧
    (sendcommandbody st body).2.getD 3 0 = (getnextseq s).1 ∧
    (sendcommandbody st body).1.nextseq = (getnextseq s).2 := by
  subst hst
  have hg : ∀ x : Nat, getnextseq x =
      (if x = 256 then 0 else x, (if x = 256 then 0 else x) + 1) := by
    intro x
    simp [getnextseq]
  refine ⟨?_, ?_, ?_, ?_, ?_⟩
  · simp only [hg]
    split <;> omega
  · simp only [hg]
    split <;> omega
  · simp only [hg]
    split_ifs <;> omega
  · simp [sendcommandbody, texframe, List.getD]
  · simp [sendcommandbody]

theorem tx_c5_witness :
    ((255 : Nat) ≤ 256 ∧ (⟨255, 0, none⟩ : SendState).nextseq = 255) ∧
    ((getnextseq 255).1 < 256 ∧
      (getnextseq 255).2 ≤ 256 ∧
      (getnextseq (getnextseq 255).2).1 = ((getnextseq 255).1 + 1) % 256 ∧
      ((sendcommandbody ⟨255, 0, none⟩ [7]).2.getD 3 0 = (getnextseq 255).1) ∧
      (sendcommandbody ⟨255, 0, none⟩ [7]).1.nextseq = (getnextseq 255).2) :=
  ⟨⟨by decide, rfl⟩, tx_c5_sequence_monotone 255 ⟨255, 0, none⟩ [7] (by decide) rfl⟩

/-- Every byte string put on the wire by the retry loop is the frame stored
in `last_command` when the loop started. -/
theorem sendRetrySends_mem (st : SendState) (r k : Nat) (f : List Nat)
    (hf : f ∈ sendRetrySends st r k) : f = st.last_command.getD [] := by
  induction r generalizing k with
  | zero => simp [sendRetrySends] at hf
  | succ r ih =>
    cases k with
    | zero => simp [sendRetrySends] at hf
    | succ k =>
      rcases List.mem_cons.mp hf with h | h
      · exact h
      · exact ih k h

/-- Claim C4 (confirmed): every byte string sent during one `sendcommand`
call - the original transmission and each timeout-driven resend - is the
identical frame `texframe (cmd :: body) seq` with the same sequence number,
and the outgoing counter advances exactly once for the whole call. -/
theorem tx_c4_retry_identity (st : SendState) (cmd : Nat) (b : List Nat) (k : Nat)
    (f : List Nat) (hf : f ∈ (sendcommand_trace st cmd (some b) k).1) :
    f = texframe (cmd :: b) (getnextseq st.nextseq).1 ∧
    (sendcommand_trace st cmd (some b) k).2.nextseq = (getnextseq st.nextseq).2 := by
  constructor
  · simp only [sendcommand_trace] at hf
    rcases List.mem_cons.mp hf with h | h
    · simpa [sendcommandbody] using h
    · have := sendRetrySends_mem _ _ _ _ h
      simpa [sendcommandbody] using this
  · simp [sendcommand_trace, sendcommandbody]

set_option maxRecDepth 8192 in
theorem tx_c4_witness :
    (texframe [5, 7] 0 ∈ (sendcommand_trace ⟨0, 0, none⟩ 5 (some [7]) 2).1) ∧
    (texframe [5, 7] 0 = texframe (5 :: [7]) (getnextseq 0).1 ∧
      (sendcommand_trace ⟨0, 0, none⟩ 5 (some [7]) 2).2.nextseq = (getnextseq 0).2) :=
  ⟨by decide, tx_c4_retry_identity ⟨0, 0, none⟩ 5 [7] 2 (texframe [5, 7] 0) (by decide)⟩

/-- Claim C8, counterexample: starting inactive, the operation sequence
"zone event sets `active := true`, then one `update()` tick" contains a
single transition of `active`, yet `active_func` is invoked twice - once by
the setter and once more by `update()`, which re-invokes the callback on
every tick while the zone is active.  So the callback does not fire exactly
once per transition over sequences that include `update()` ticks. -/
theorem tx_c8_counterexample :
    (zoneRun false [ZoneOp.setActive true, ZoneOp.update]).2 =
      [(false, true), (true, true)] ∧
    (zoneRun false [ZoneOp.setActive true, ZoneOp.update]).2.length = 2 ∧
    transitionsCount false [ZoneOp.setActive true, ZoneOp.update] = 1 := by decide

/-- Claim C8 (corrected): the `active` setter fires `active_func` exactly
once per transition and never when an assignment leaves `active` unchanged,
but `update()` additionally invokes `active_func(zone, True, True)` on every
tick while the zone is active; the total number of invocations over any
operation sequence is the number of transitions plus the number of update
ticks executed while active. -/
theorem tx_c8_active_callback (a : Bool) (ops : List ZoneOp) :
    (zoneRun a ops).2.length = transitionsCount a ops + updatesWhileActive a ops := by
  induction ops generalizing a with
  | nil => simp [zoneRun, transitionsCount, updatesWhileActive]
  | cons op rest ih =>
    cases op with
    | setActive b =>
      by_cases hab : b = a
      · subst hab
        simp [zoneRun, zoneStep, transitionsCount, updatesWhileActive, ih]
      · have hb : (b == a) = false := beq_eq_false_iff_ne.mpr hab
        simp [zoneRun, zoneStep, transitionsCount, updatesWhileActive, hb, ih]
        omega
    | update =>
      cases a with
      | false => simp [zoneRun, zoneStep, transitionsCount, updatesWhileActive, ih]
      | true =>
        simp [zoneRun, zoneStep, transitionsCount, updatesWhileActive, ih]
        omega

/-- Claim C9, counterexample: for a 12-zone panel the fixed tables say 8
users and 2 areas, but `range(1, n)` excludes its upper bound: the client
fetches users 1..7 (user 8 is never requested) and only area 1 (area 2 is
never requested). -/
theorem tx_c9_counterexample :
    get_all_users_iter 12 = some [1, 2, 3, 4, 5, 6, 7] ∧
    get_all_areas_iter 12 = some [1] ∧
    ¬ (8 ∈ (get_all_users_iter 12).getD []) ∧
    ¬ (2 ∈ (get_all_areas_iter 12).getD []) := by decide

/-- Claim C9 (corrected): during site-data load the client retrieves user
records for user numbers 1 up to `panel_users[n] - 1` and area records for
area numbers 1 up to `panel_areas[n] - 1` - the Python `range(1, N)` stops
one short of the table value. -/
theorem tx_c9_site_ranges (n u a k : Nat) (lu la : List Nat)
    (hu : panel_users n = some u) (ha : panel_areas n = some a)
    (hlu : get_all_users_iter n = some lu) (hla : get_all_areas_iter n = some la) :
    (k ∈ lu ↔ 1 ≤ k ∧ k < u) ∧ (k ∈ la ↔ 1 ≤ k ∧ k < a) := by
  have hu2 : 1 ≤ u := by
    unfold panel_users at hu
    split_ifs at hu <;> simp_all <;> omega
  have ha2 : 1 ≤ a := by
    unfold panel_areas at ha
    split_ifs at ha <;> simp_all <;> omega
  have hlu2 : lu = pyrange 1 u := by
    rw [get_all_users_iter, hu] at hlu
    exact (Option.some.injEq _ _ ▸ hlu).symm
  have hla2 : la = pyrange 1 a := by
    rw [get_all_areas_iter, ha] at hla
    exact (Option.some.injEq _ _ ▸ hla).symm
  subst hlu2 hla2
  constructor
  · rw [pyrange, List.mem_range'_1]
    omega
  · rw [pyrange, List.mem_range'_1]
    omega

theorem tx_c9_witness :
    (panel_users 48 = some 50 ∧ panel_areas 48 = some 4 ∧
      get_all_users_iter 48 = some (pyrange 1 50) ∧
      get_all_areas_iter 48 = some (pyrange 1 4)) ∧
    (10 ∈ pyrange 1 50 ↔ 1 ≤ 10 ∧ 10 < 50) ∧
    (3 ∈ pyrange 1 4 ↔ 1 ≤ 3 ∧ 3 < 4) :=
  ⟨⟨by decide, by decide, by decide, by decide⟩,
    (tx_c9_site_ranges 48 50 4 10 (pyrange 1 50) (pyrange 1 4)
      (by decide) (by decide) (by decide) (by decide)).1,
    (tx_c9_site_ranges 48 50 4 3 (pyrange 1 50) (pyrange 1 4)
      (by decide) (by decide) (by decide) (by decide)).2⟩

/-- Claim C10 (confirmed): `message_handler` reads the zone number from the
first payload byte and the bitmap from the second regardless of payload
length, so a 3-byte wide-panel zone event `[lo, hi, state]` mutates zone
`lo` with bitmap `hi`, while `decode_message_to_text` decodes the same
payload as zone `lo + 256 * hi` with bitmap `state`. -/
theorem tx_c10_handler_vs_decode (lo hi state : Nat) (rest : List Nat) :
    message_handler_zone (1 :: lo :: hi :: rest) =
      some (lo, hi, (hi &&& 3 == 1)) ∧
    decode_zone_event [1, lo, hi, state] = some (lo + hi * 2 ^ 8, state) := by
  constructor
  · simp [message_handler_zone, MSG_ZONEEVENT, List.getD]
  · simp [decode_zone_event, MSG_ZONEEVENT, List.getD, Nat.shiftLeft_eq]

/-- Claim C1, counterexample: a 4-byte header read of `"+++B"` (bytes
`2B 2B 2B 42`) is not treated as a peer hangup: `recvresponse` falls
through to the start-byte check, logs an unexpected message start, and
returns `None` without closing the socket (`protoErr`, not `closed`). -/
theorem tx_c1_counterexample :
    (recvLoop ⟨0, -1⟩ [([43, 43, 43, 66], [])] []).1 = RecvOutcome.protoErr ∧
    RecvOutcome.protoErr ≠ RecvOutcome.closed := by decide

/-- Claim C1 (corrected): a header read equal to exactly the three bytes
`"+++"`, or exactly `"+++A"`, is classified as a peer hangup: the socket is
closed and `None` returned.  A 4-byte header `"+++"` followed by any byte
other than `'A'` is instead rejected by the start-byte check: `None` is
returned without closing the socket. -/
theorem tx_c1_hangup (st : RecvState) (p : List Nat)
    (rest : List (List Nat × List Nat)) (hnd : List (List Nat))
    (x : Nat) (hx : x ≠ 65) :
    (recvLoop st (([43, 43, 43], p) :: rest) hnd).1 = RecvOutcome.closed ∧
    (recvLoop st (([43, 43, 43, 65], p) :: rest) hnd).1 = RecvOutcome.closed ∧
    (recvLoop st (([43, 43, 43, x], p) :: rest) hnd).1 = RecvOutcome.protoErr := by
  refine ⟨by simp [recvLoop], by simp [recvLoop], ?_⟩
  simp [recvLoop, hx, List.getD]

theorem tx_c1_witness :
    ((66 : Nat) ≠ 65) ∧
    ((recvLoop ⟨0, -1⟩ [([43, 43, 43], [])] []).1 = RecvOutcome.closed ∧
      (recvLoop ⟨0, -1⟩ [([43, 43, 43, 65], [])] []).1 = RecvOutcome.closed ∧
      (recvLoop ⟨0, -1⟩ [([43, 43, 43, 66], [])] []).1 = RecvOutcome.protoErr) :=
  ⟨by decide, tx_c1_hangup ⟨0, -1⟩ [] [] [] 66 (by decide)⟩

set_option maxRecDepth 8192 in
/-- Claim C6, counterexample: with a command outstanding at sequence 5, a
response frame whose trailing CRC byte is wrong (95 instead of the correct
94 for header `74 52 06 05` and body `[23]`) makes `recvresponse` return
`None` at once, even though the very next frame is the identical response
with a valid CRC: the receive path aborts the command instead of dropping
the frame and continuing to read. -/
theorem tx_c6_counterexample :
    crc8 [116, 82, 6, 5, 23] = 94 ∧
    recvLoop ⟨5, -1⟩ [([116, 82, 6, 5], [23, 95]), ([116, 82, 6, 5], [23, 94])] [] =
      (RecvOutcome.protoErr, ⟨5, -1⟩, []) ∧
    RecvOutcome.protoErr ≠ RecvOutcome.response [23] := by decide

/-- Claim C6 (corrected): a received frame whose trailing CRC byte does not
match the CRC-8 recomputed over header plus body is logged, and
`recvresponse` immediately returns `None` - failing the outstanding command
- without closing the socket and without reading any further frames. -/
theorem tx_c6_crc_mismatch (st : RecvState) (t l q : Nat) (payload : List Nat)
    (rest : List (List Nat × List Nat)) (hnd : List (List Nat))
    (hlen : l - 4 ≤ payload.length)
    (hcrc : payload.getLast?.getD 0 ≠ crc8 ([116, t, l, q] ++ payload.dropLast)) :
    recvLoop st (([116, t, l, q], payload) :: rest) hnd =
      (RecvOutcome.protoErr, st, hnd) := by
  have hnotlt : ¬ payload.length < l - 4 := by omega
  have hcrc2 : payload.getLast?.getD 0 ≠ crc8 (116 :: t :: l :: q :: payload.dropLast) := by
    simpa using hcrc
  simp [recvLoop, hnotlt, hcrc2, List.getD]

set_option maxRecDepth 8192 in
theorem tx_c6_witness :
    ((6 : Nat) - 4 ≤ ([23, 95] : List Nat).length ∧
      ([23, 95] : List Nat).getLast?.getD 0 ≠
        crc8 ([116, 82, 6, 5] ++ ([23, 95] : List Nat).dropLast)) ∧
    recvLoop ⟨5, -1⟩ [([116, 82, 6, 5], [23, 95])] [] =
      (RecvOutcome.protoErr, ⟨5, -1⟩, []) :=
  ⟨⟨by decide, by decide⟩,
    tx_c6_crc_mismatch ⟨5, -1⟩ 82 6 5 [23, 95] [] [] (by decide) (by decide)⟩

/-- A CRC-correct response packet whose sequence differs from the
outstanding command's sequence is discarded and reading continues with the
state unchanged. -/
theorem recvLoop_mkRpkt_wrong (st : RecvState) (q : Nat) (b : List Nat)
    (rest : List (List Nat × List Nat)) (hnd : List (List Nat))
    (h : q ≠ st.last_sequence) :
    recvLoop st (mkRpkt q b :: rest) hnd = recvLoop st rest hnd := by
  simp [recvLoop, mkRpkt, List.dropLast_concat, List.getLast?_concat, h, List.getD]

/-- A CRC-correct response packet bearing the outstanding command's
sequence is returned to the caller as the response body. -/
theorem recvLoop_mkRpkt_match (st : RecvState) (b : List Nat)
    (rest : List (List Nat × List Nat)) (hnd : List (List Nat)) :
    recvLoop st (mkRpkt st.last_sequence b :: rest) hnd =
      (RecvOutcome.response b, st, hnd) := by
  simp [recvLoop, mkRpkt, List.dropLast_concat, List.getLast?_concat, List.getD]

/-- Claim C7 (confirmed): while awaiting a response, an `R` frame whose
sequence differs from the outstanding command's sequence is discarded and
reading continues; a subsequent `R` frame whose sequence matches is
delivered to the caller as the response body. -/
theorem tx_c7_seq_mismatch_recovery (st : RecvState) (wrongSeq : Nat)
    (b1 b2 : List Nat) (rest : List (List Nat × List Nat)) (hnd : List (List Nat))
    (hne : wrongSeq ≠ st.last_sequence) :
    recvLoop st (mkRpkt wrongSeq b1 :: mkRpkt st.last_sequence b2 :: rest) hnd =
      (RecvOutcome.response b2, st, hnd) := by
  rw [recvLoop_mkRpkt_wrong st wrongSeq b1 _ hnd hne,
    recvLoop_mkRpkt_match st b2 rest hnd]

set_option maxRecDepth 8192 in
theorem tx_c7_witness :
    ((4 : Nat) ≠ 5) ∧
    recvLoop ⟨5, -1⟩ [mkRpkt 4 [23], mkRpkt 5 [23, 7]] [] =
      (RecvOutcome.response [23, 7], ⟨5, -1⟩, []) :=
  ⟨by decide, tx_c7_seq_mismatch_recovery ⟨5, -1⟩ 4 [23] [23, 7] [] [] (by decide)⟩

/-- Claim C2, counterexample: the body `23 07 1E 0B 17 05 2A` does not
decode to `"2023-11-30 05:42:07"`.  Its first byte 0x23 is not the
GET_DATETIME command id (`chr(23)` = 0x17), so `sendcommand` rejects the
echo and `get_date_time` returns `None`.  Even with the id fixed to 0x17,
the six data bytes read in the code's field order `{day, month, year,
hour, minute, second}` are day 7, month 30, year 2011: the format string
would render `"2011-30-07 23:05:42"` and the `datetime.datetime`
construction then raises on month 30, so nothing is returned. -/
theorem tx_c2_counterexample :
    get_date_time_decode [0x23, 0x07, 0x1E, 0x0B, 0x17, 0x05, 0x2A] =
      DTOutcome.returnedNone ∧
    get_date_time_decode [0x23, 0x07, 0x1E, 0x0B, 0x17, 0x05, 0x2A] ≠
      DTOutcome.returned "2023-11-30 05:42:07" ∧
    get_date_time_decode [0x17, 0x07, 0x1E, 0x0B, 0x17, 0x05, 0x2A] =
      DTOutcome.raised ∧
    get_date_time_render 7 30 11 23 5 42 = "2011-30-07 23:05:42" ∧
    ("2011-30-07 23:05:42" : String) ≠ "2023-11-30 05:42:07" := by
  refine ⟨rfl, by simp [get_date_time_decode, sendcommand_route, CMD_GETDATETIME],
    by decide, rfl, by decide⟩

/-- Claim C2 (corrected): `get_date_time` decodes a GET_DATETIME response
of 6 data bytes `{day, month, year-2000, hour, minute, second}` whose
fields form a valid calendar date and time into `20YY-MM-DD hh:mm:ss`
(on invalid fields the `datetime.datetime` call at line 582 raises
instead); the response body `17 1E 0B 17 05 2A 07` (echoed command id
0x17 = 23 followed by the six data bytes) decodes to
`"2023-11-30 05:42:07"`. -/
theorem tx_c2_datetime_decode (d m y hh mm ss : Nat)
    (hvalid : datetime_ctor_ok [d, m, y, hh, mm, ss] = true) :
    get_date_time_decode [23, d, m, y, hh, mm, ss] =
      DTOutcome.returned ("20" ++ fmt2 y ++ "-" ++ fmt2 m ++ "-" ++ fmt2 d ++ " " ++
        fmt2 hh ++ ":" ++ fmt2 mm ++ ":" ++ fmt2 ss) ∧
    get_date_time_decode [23, 30, 11, 23, 5, 42, 7] =
      DTOutcome.returned "2023-11-30 05:42:07" := by
  constructor
  · simp [get_date_time_decode, sendcommand_route, CMD_GETDATETIME, hvalid,
      get_date_time_render, List.getD]
  · rfl

theorem tx_c2_witness :
    datetime_ctor_ok [30, 11, 23, 5, 42, 7] = true ∧
    (get_date_time_decode [23, 30, 11, 23, 5, 42, 7] =
      DTOutcome.returned ("20" ++ fmt2 23 ++ "-" ++ fmt2 11 ++ "-" ++ fmt2 30 ++ " " ++
        fmt2 5 ++ ":" ++ fmt2 42 ++ ":" ++ fmt2 7) ∧
    get_date_time_decode [23, 30, 11, 23, 5, 42, 7] =
      DTOutcome.returned "2023-11-30 05:42:07") :=
  ⟨by decide, tx_c2_datetime_decode 30 11 23 5 42 7 (by decide)⟩

/-- Claim C3 (confirmed): a GET_ZONE_DETAILS response body of length 34
takes the area bitmap from 1 byte, of length 35 from 2 bytes
little-endian, of length 41 from 8 bytes little-endian, with the remaining
bytes becoming the (cleaned) zone text; every other length is rejected
(`None`, no zone fields set). -/
theorem tx_c3_zone_details_dispatch
    (t a b c d e f g h8 : Nat) (rest34 rest35 rest41 other : List Nat)
    (h34 : rest34.length = 32) (h35 : rest35.length = 32) (h41 : rest41.length = 32)
    (hother : other.length ≠ 34 ∧ other.length ≠ 35 ∧ other.length ≠ 41) :
    get_zone_details_parse (t :: a :: rest34) =
      some ⟨t, a, cleanText rest34⟩ ∧
    get_zone_details_parse (t :: a :: b :: rest35) =
      some ⟨t, a + b * 2 ^ 8, cleanText rest35⟩ ∧
    get_zone_details_parse (t :: a :: b :: c :: d :: e :: f :: g :: h8 :: rest41) =
      some ⟨t, a + b * 2 ^ 8 + c * 2 ^ 16 + d * 2 ^ 24 + e * 2 ^ 32 +
        f * 2 ^ 40 + g * 2 ^ 48 + h8 * 2 ^ 56, cleanText rest41⟩ ∧
    get_zone_details_parse other = none := by
  refine ⟨?_, ?_, ?_, ?_⟩
  · simp [get_zone_details_parse, h34, List.getD, Nat.shiftLeft_eq]
  · simp [get_zone_details_parse, h35, List.getD, Nat.shiftLeft_eq]
  · simp [get_zone_details_parse, h41, List.getD, Nat.shiftLeft_eq]
  · simp [get_zone_details_parse, hother.1, hother.2.1, hother.2.2]

set_option maxRecDepth 8192 in
theorem tx_c3_witness :
    ((List.replicate 32 65 : List Nat).length = 32 ∧
      (([] : List Nat).length ≠ 34 ∧ ([] : List Nat).length ≠ 35 ∧
        ([] : List Nat).length ≠ 41)) ∧
    (get_zone_details_parse (2 :: 3 :: List.replicate 32 65) =
      some ⟨2, 3, cleanText (List.replicate 32 65)⟩ ∧
    get_zone_details_parse (2 :: 3 :: 1 :: List.replicate 32 65) =
      some ⟨2, 3 + 1 * 2 ^ 8, cleanText (List.replicate 32 65)⟩ ∧
    get_zone_details_parse
        (2 :: 3 :: 1 :: 0 :: 0 :: 0 :: 0 :: 0 :: 1 :: List.replicate 32 65) =
      some ⟨2, 3 + 1 * 2 ^ 8 + 0 * 2 ^ 16 + 0 * 2 ^ 24 + 0 * 2 ^ 32 +
        0 * 2 ^ 40 + 0 * 2 ^ 48 + 1 * 2 ^ 56, cleanText (List.replicate 32 65)⟩ ∧
    get_zone_details_parse [] = none) :=
  ⟨⟨by decide, by decide, by decide, by decide⟩,
    tx_c3_zone_details_dispatch 2 3 1 0 0 0 0 0 1
      (List.replicate 32 65) (List.replicate 32 65) (List.replicate 32 65) []
      (by decide) (by decide) (by decide) ⟨by decide, by decide, by decide⟩⟩
